import Mathlib

/-! Ray-tracing core: vectors, rays, colours, lights and `Shape::intersect`.

A shallow embedding of `src/offline_4/vector3d.cpp` and `src/offline_4/shape.cpp`.
The C++ `double` is read as an element of an ordered field `α` (exact arithmetic);
the embedding is executable at `α = ℚ`.
-/

set_option linter.unusedVariables false

namespace RayTracer

/-! ## `Vector3D` (src/offline_4/vector3d.cpp) -/

/-- The class `Vector3D`: the three components `v[0]`, `v[1]`, `v[2]`. -/
structure Vector3D (α : Type) where
  x : α
  y : α
  z : α
  deriving DecidableEq

namespace Vector3D

variable {α : Type} [LinearOrderedField α]

/-- Cross product, `Vector3D::operator*(Vector3D)` (lines 40-46). -/
def cross (a b : Vector3D α) : Vector3D α :=
  ⟨a.y * b.z - a.z * b.y, a.z * b.x - a.x * b.z, a.x * b.y - a.y * b.x⟩

/-- Dot product, `Vector3D::dot_product` (lines 52-55). -/
def dot_product (a b : Vector3D α) : α :=
  a.x * b.x + a.y * b.y + a.z * b.z

/-- Sum, `Vector3D::operator+` (lines 62-68). -/
def add (a b : Vector3D α) : Vector3D α :=
  ⟨a.x + b.x, a.y + b.y, a.z + b.z⟩

/-- Difference, `Vector3D::operator-` (lines 74-80). -/
def sub (a b : Vector3D α) : Vector3D α :=
  ⟨a.x - b.x, a.y - b.y, a.z - b.z⟩

/-- Division by a scalar, `Vector3D::operator/(double)` (lines 86-92). -/
def div (a : Vector3D α) (scalar : α) : Vector3D α :=
  ⟨a.x / scalar, a.y / scalar, a.z / scalar⟩

/-- Product with a scalar, `Vector3D::operator*(double)` (lines 98-104). -/
def scale (a : Vector3D α) (scalar : α) : Vector3D α :=
  ⟨a.x * scalar, a.y * scalar, a.z * scalar⟩

/-- Comparison `Vector3D::operator==` (lines 121-124): exact and component-wise. -/
def eq (a b : Vector3D α) : Bool :=
  decide (a.x = b.x) && decide (a.y = b.y) && decide (a.z = b.z)

/-- Euclidean norm `Vector3D::length` (line 151), over a square-root function `sqrt`. -/
def length (sqrt : α → α) (a : Vector3D α) : α :=
  sqrt (a.x * a.x + a.y * a.y + a.z * a.z)

/-- In-place `Vector3D::normalize` (lines 129-134): the value of the vector after the
call, each component divided by the `length()` taken on entry. -/
def normalize (sqrt : α → α) (a : Vector3D α) : Vector3D α :=
  let magnitude := length sqrt a
  ⟨a.x / magnitude, a.y / magnitude, a.z / magnitude⟩

/-- In-place `Vector3D::rotate` (lines 158-161): the value of `*this = v` after
`v.rotate(axis, angle)`, namely `v * cos(angle) + (axis * v) * sin(angle)`, over the
`<cmath>` functions `cos` and `sin`. -/
def rotate (cos sin : α → α) (v axis : Vector3D α) (angle : α) : Vector3D α :=
  let v1 := cross axis v
  add (scale v (cos angle)) (scale v1 (sin angle))

/-- Full Rodrigues rotation as the specification words it (not code of the program):
`v·cos(θ) + (axis × v)·sin(θ) + axis·(axis·v)(1 − cos θ)`. -/
def rodrigues_spec (cos sin : α → α) (v axis : Vector3D α) (angle : α) : Vector3D α :=
  add (add (scale v (cos angle)) (scale (cross axis v) (sin angle)))
    (scale (scale axis (dot_product axis v)) (1 - cos angle))

end Vector3D

/-! ## Library functions and classes used by `Shape::intersect` -/

/-- The `<cmath>` functions that `Shape::intersect` calls on `double`s, together
with `Vector3D::angle`, which `shape.cpp` calls (line 187) but which is not defined
in `vector3d.cpp`; they are parameters of the embedding. -/
structure MathFns (α : Type) where
  /-- The function `sqrt` of `<cmath>`, used by `Vector3D::length`. -/
  sqrt : α → α
  /-- The function `exp` of `<cmath>`. -/
  exp : α → α
  /-- The method `Vector3D::angle` (radians): `a.angle(b)` is `angle a b`. -/
  angle : Vector3D α → Vector3D α → α

/-- The constant `M_PI` of `<math.h>`. -/
def M_PI {α : Type} [LinearOrderedField α] : α := 3.14159265358979323846

/-- Modelled from the spec: the class `Color` of `color.cpp` (not among the sources),
"three real components" with "component-wise add/scale". -/
structure Color (α : Type) where
  r : α
  g : α
  b : α
  deriving DecidableEq

namespace Color

variable {α : Type} [LinearOrderedField α]

/-- Modelled from the spec: `Color::operator+(Color)`, component-wise sum. -/
def add (a b : Color α) : Color α :=
  ⟨a.r + b.r, a.g + b.g, a.b + b.b⟩

/-- Modelled from the spec: `Color::operator*(double)`, component-wise scaling. -/
def scale (a : Color α) (k : α) : Color α :=
  ⟨a.r * k, a.g * k, a.b * k⟩

/-- Modelled from the spec: `Color::operator*(Color)`, component-wise product
("baseColor × (...) × lightColor"). -/
def mul (a b : Color α) : Color α :=
  ⟨a.r * b.r, a.g * b.g, a.b * b.b⟩

/-- Component-wise order on colours: every component of `a` is at most that of `b`. -/
def le (a b : Color α) : Prop :=
  a.r ≤ b.r ∧ a.g ≤ b.g ∧ a.b ≤ b.b

instance (a b : Color α) : Decidable (Color.le a b) := by
  unfold Color.le
  infer_instance

end Color

/-- Modelled from the spec: the class `Line` of `line.cpp` (not among the sources),
"an origin point and a direction vector (not required to be unit length at
construction)". -/
structure Line (α : Type) where
  origin : Vector3D α
  direction : Vector3D α
  deriving DecidableEq

namespace Line

variable {α : Type} [LinearOrderedField α]

/-- Modelled from the spec: `Line::getPoint`, "pointAt(t) = origin + direction * t". -/
def getPoint (l : Line α) (t : α) : Vector3D α :=
  Vector3D.add l.origin (Vector3D.scale l.direction t)

/-- Modelled from the spec: `Line::getDirection`, the direction vector of the ray. -/
def getDirection (l : Line α) : Vector3D α := l.direction

end Line

/-- The class `Light` (src/offline_4/1805086_light.cpp): position, colour, falloff. -/
structure Light (α : Type) where
  position : Vector3D α
  color : Color α
  falloff : α

/-- Modelled from the spec: the class `SpotLight` of `spot_light.cpp` (not among the
sources), "is-a Light plus a direction vector and a half-angle (degrees)". -/
structure SpotLight (α : Type) extends Light α where
  direction : Vector3D α
  angle : α

/-- The class `Shape` (src/offline_4/shape.cpp, lines 17-240): the material fields and
the pure virtual methods `getNormal`, `getIntersection`, `getColorAt`, which a concrete
shape supplies. -/
structure Shape (α : Type) where
  position : Vector3D α
  color : Color α
  ambient_coefficient : α
  diffuse_coefficient : α
  specular_coefficient : α
  reflection_coefficient : α
  specular_exponent : Int
  getNormal : Vector3D α → Line α → Line α
  getIntersection : Line α → α
  getColorAt : Vector3D α → Color α

section Intersect

variable {α : Type} [LinearOrderedField α]

/-- The inner loop of lines 110-117 (and 174-181): `is_visible` starts `true` and
becomes `false` at the first shape whose `getIntersection(light_line)` lies strictly
between `0` and `t - 0.0001`, `t` being the parameter of the primary ray. -/
def is_visible (shapes : List (Shape α)) (light_line : Line α) (t : α) : Bool :=
  match shapes with
  | [] => true
  | s :: rest =>
    let other_t := s.getIntersection light_line
    if other_t > 0 ∧ other_t < t - 0.0001 then false
    else is_visible rest light_line t

/-- The shadow ray of lines 95-99 (and 159-163): `light_direction` is
`light_position - intersection_point` and the ray is
`Line light_line(light_position, light_direction)`. -/
def light_line (light_position intersection_point : Vector3D α) : Line α :=
  ⟨light_position, Vector3D.sub light_position intersection_point⟩

/-- The reflection vector of lines 132-134 (and 206-208):
`light_line.getDirection() - normal_line.getDirection() * 2 * dot_product` with
`dot_product = normal_line.getDirection().dot_product(light_line.getDirection())`;
`n` is the direction of the normal line, `d` the direction of the light line. -/
def reflection_vector (n d : Vector3D α) : Vector3D α :=
  let dot_product := Vector3D.dot_product n d
  Vector3D.sub d (Vector3D.scale (Vector3D.scale n 2) dot_product)

/-- The attenuation `scaling_factor` of lines 105-107 (and 169-171):
`exp(-1 * light_direction.length() * light_direction.length() * falloff)`. -/
def scaling_factor (sqrt exp : α → α) (light_direction : Vector3D α) (falloff : α) : α :=
  exp (-1 * Vector3D.length sqrt light_direction *
    Vector3D.length sqrt light_direction * falloff)

/-- The Phong component of lines 130-140 (and 204-214): the negated direction of the
primary ray dotted with the reflection vector, floored at 0. -/
def phong_component (line normal_line light_line : Line α) : α :=
  let reflection_vector :=
    reflection_vector normal_line.getDirection light_line.getDirection
  let phong_component :=
    Vector3D.dot_product (Vector3D.scale line.getDirection (-1)) reflection_vector
  if phong_component < 0 then 0 else phong_component

/-- The shaded colour that lines 121-149 (and 195-223) add to `color_value` for a light
of colour `light_color`: `color_at_intersection_point * (light_color *
diffuse_coefficient * lambart_component + light_color * specular_coefficient *
pow(phong_component, specular_exponent)) * scaling_factor`. The call
`pow(phong_component, specular_exponent)` is the power `phong_component ^
specular_exponent` of the field, which is its value wherever `pow_finite` holds; at the
pole (`phong_component = 0`, negative exponent) the field power is `0` while C gives
`+inf`, and the runs that reach it are told apart by `intersect_checked`. -/
def light_term (sh : Shape α) (line : Line α) (color_at_intersection_point : Color α)
    (normal_line light_line : Line α) (light_color : Color α) (scaling_factor : α) :
    Color α :=
  let lambart_component0 :=
    Vector3D.dot_product (Vector3D.scale normal_line.getDirection (-1))
      light_line.getDirection
  let lambart_component := if lambart_component0 < 0 then 0 else lambart_component0
  let phong_component := phong_component line normal_line light_line
  Color.scale
    (Color.mul color_at_intersection_point
      (Color.add
        (Color.scale (Color.scale light_color sh.diffuse_coefficient) lambart_component)
        (Color.scale (Color.scale light_color sh.specular_coefficient)
          (phong_component ^ sh.specular_exponent))))
    scaling_factor

/-- One iteration of the point-light loop (lines 93-154). The state is the pair
`(color_value, color_to_return)`. -/
def point_light_step (m : MathFns α) (sh : Shape α) (line : Line α)
    (shapes : List (Shape α)) (t : α) (intersection_point : Vector3D α)
    (color_at_intersection_point : Color α)
    (st : Color α × Color α) (light : Light α) : Color α × Color α :=
  let light_position := light.position
  let light_direction := Vector3D.sub light_position intersection_point
  let light_line := light_line light_position intersection_point
  let normal_line := sh.getNormal intersection_point light_line
  let scaling_factor := scaling_factor m.sqrt m.exp light_direction light.falloff
  if is_visible shapes light_line t then
    let color_value :=
      Color.add st.1
        (light_term sh line color_at_intersection_point normal_line light_line
          light.color scaling_factor)
    (color_value, Color.add st.2 color_value)
  else st

/-- One iteration of the spot-light loop (lines 157-228): as for a point light, with
the extra cone test of lines 187-191. -/
def spot_light_step (m : MathFns α) (sh : Shape α) (line : Line α)
    (shapes : List (Shape α)) (t : α) (intersection_point : Vector3D α)
    (color_at_intersection_point : Color α)
    (st : Color α × Color α) (light : SpotLight α) : Color α × Color α :=
  let light_position := light.position
  let light_direction := Vector3D.sub light_position intersection_point
  let light_line := light_line light_position intersection_point
  let normal_line := sh.getNormal intersection_point light_line
  let scaling_factor := scaling_factor m.sqrt m.exp light_direction light.falloff
  let is_visible0 := is_visible shapes light_line t
  let angle := m.angle light.direction light_direction
  let is_visible1 := if angle * 180 / M_PI > light.angle then false else is_visible0
  if is_visible1 then
    let color_value :=
      Color.add st.1
        (light_term sh line color_at_intersection_point normal_line light_line
          light.color scaling_factor)
    (color_value, Color.add st.2 color_value)
  else st

/-- The method `Shape::intersect` (lines 71-233). The result is the returned `double` paired with
the final value of the reference parameter `color_to_return`. -/
def intersect (m : MathFns α) (sh : Shape α) (line : Line α)
    (lights : List (Light α)) (spot_lights : List (SpotLight α))
    (shapes : List (Shape α)) (color_to_return : Color α)
    (current_level recursion_level : Int) : α × Color α :=
  let t := sh.getIntersection line
  if t < 0 then (-1, color_to_return)
  else if recursion_level = 0 then (t, color_to_return)
  else
    let intersection_point := line.getPoint t
    let color_at_intersection_point := sh.getColorAt intersection_point
    let color_value := Color.scale color_at_intersection_point sh.ambient_coefficient
    let st1 :=
      lights.foldl
        (point_light_step m sh line shapes t intersection_point color_at_intersection_point)
        (color_value, color_to_return)
    let st2 :=
      spot_lights.foldl
        (spot_light_step m sh line shapes t intersection_point color_at_intersection_point)
        st1
    (sh.getIntersection line, st2.2)

end Intersect

/-! ## The clock program (src/offline_1/clock.cpp) -/

namespace Clock

/-- A floating-point division `a / b` that records a zero divisor: `none` when `b = 0`. -/
def checked_div (a b : ℚ) : Option ℚ :=
  if b = 0 then none else some (a / b)

/-- The handler `reshape` (lines 44-62). The result is the argument list of the
`gluOrtho2D` call, or `none` when one of the divisions `width / height`,
`-1.0 / aspect`, `1.0 / aspect` is evaluated with a zero divisor. -/
def reshape (width height : Int) : Option (ℚ × ℚ × ℚ × ℚ) :=
  let height := if height = 0 then 1 else height
  (checked_div (width : ℚ) (height : ℚ)).bind fun aspect =>
    if width ≥ height then
      some (-1.0 * aspect, 1.0 * aspect, -1.0, 1.0)
    else
      (checked_div (-1.0) aspect).bind fun bottom =>
        (checked_div 1.0 aspect).bind fun top =>
          some (-1.0, 1.0, bottom, top)

/-- The macro `ANGLE_INCREMENT` (line 2). -/
def ANGLE_INCREMENT : ℚ := 6.0

/-- The global variables `hour_angle`, `minute_angle`, `second_angle` (lines 17-23). -/
structure State where
  hour_angle : ℚ
  minute_angle : ℚ
  second_angle : ℚ
  deriving DecidableEq

/-- The initial values of the three globals, all `0.0`. -/
def initial_state : State := ⟨0.0, 0.0, 0.0⟩

/-- The timer callback `second_passed_handler` (lines 209-232), as a function on the
three globals; the calls `glutPostRedisplay` and `glutTimerFunc` do not touch them. -/
def second_passed_handler (value : Int) (s : State) : State :=
  let second_angle := s.second_angle + ANGLE_INCREMENT
  let second_angle := if second_angle ≥ 360.0 then 0.0 else second_angle
  let minute_angle := s.minute_angle + ANGLE_INCREMENT / 60.0
  let minute_angle := if minute_angle ≥ 360.0 then 0.0 else minute_angle
  let hour_angle := s.hour_angle + ANGLE_INCREMENT / 3600.0
  let hour_angle := if hour_angle ≥ 360.0 then 0.0 else hour_angle
  ⟨hour_angle, minute_angle, second_angle⟩

/-- The globals after `n` calls of `second_passed_handler`, started from the initial
state: `main` registers the handler with value `0` (line 77) and the handler
re-registers itself with value `0` (line 231). -/
def ticks : Nat → State
  | 0 => initial_state
  | n + 1 => second_passed_handler 0 (ticks n)

/-- All three angles lie in `[0, 360)`. -/
def in_range (s : State) : Prop :=
  (0 ≤ s.second_angle ∧ s.second_angle < 360) ∧
  (0 ≤ s.minute_angle ∧ s.minute_angle < 360) ∧
  (0 ≤ s.hour_angle ∧ s.hour_angle < 360)

instance (s : State) : Decidable (in_range s) := by
  unfold in_range
  infer_instance

end Clock

/-! ## The magic-cube program (src/offline_1/magic_cube.cpp) -/

namespace MagicCube

variable {α ω : Type} [LinearOrderedField α]

/-- An array of three numbers, indices `0`, `1`, `2`. -/
structure Arr3 (α : Type) where
  i0 : α
  i1 : α
  i2 : α
  deriving DecidableEq

/-- The globals `camera`, `look`, `up` (lines 19-24) and the global `octahedron`
(line 15), whose class is declared in `octahedron.h` (not among the sources) and is
kept abstract as a value of type `ω`. -/
structure State (α ω : Type) where
  camera : Arr3 α
  look : Arr3 α
  up : Arr3 α
  octahedron : ω

/-- The initial values of the globals (lines 20, 22, 24), for an octahedron `o`. -/
def initial_state (o : ω) : State α ω :=
  ⟨⟨0.0, 0.0, 0.0⟩, ⟨0.0, 0.0, -1.0⟩, ⟨0.0, 1.0, 0.0⟩, o⟩

/-- The macro `PI_DEGREE` (line 2). -/
def PI_DEGREE : α := 180.0

/-- The keyboard callback `key_poressed` (lines 75-117), over the `<cmath>` functions
`cos` and `sin` and the methods `rotateX`, `rotateY` of the octahedron. In case `'1'`
(and `'2'`) the second assignment reads the value of `look[0]` that the first one has
just stored. -/
def key_poressed (cos sin : α → α) (rotateX rotateY : ω → α → ω)
    (key : Char) (x y : Int) (s : State α ω) : State α ω :=
  if key = 'a' then { s with octahedron := rotateY s.octahedron (-PI_DEGREE / 12) }
  else if key = 'd' then { s with octahedron := rotateY s.octahedron (PI_DEGREE / 12) }
  else if key = 'A' then { s with octahedron := rotateY s.octahedron (-PI_DEGREE / 12) }
  else if key = 'D' then { s with octahedron := rotateX s.octahedron (PI_DEGREE / 12) }
  else if key = '1' then
    let look0 := s.look.i0 * cos (-M_PI / 180) + s.look.i2 * sin (-M_PI / 180)
    let look2 := -look0 * sin (-M_PI / 180) + s.look.i2 * cos (-M_PI / 180)
    { s with look := ⟨look0, s.look.i1, look2⟩ }
  else if key = '2' then
    let look0 := s.look.i0 * cos (M_PI / 180) + s.look.i2 * sin (M_PI / 180)
    let look2 := -look0 * sin (M_PI / 180) + s.look.i2 * cos (M_PI / 180)
    { s with look := ⟨look0, s.look.i1, look2⟩ }
  else s

/-- The constant `GLUT_KEY_LEFT` of `<GL/glut.h>`. -/
def GLUT_KEY_LEFT : Int := 100

/-- The constant `GLUT_KEY_UP` of `<GL/glut.h>`. -/
def GLUT_KEY_UP : Int := 101

/-- The constant `GLUT_KEY_RIGHT` of `<GL/glut.h>`. -/
def GLUT_KEY_RIGHT : Int := 102

/-- The constant `GLUT_KEY_DOWN` of `<GL/glut.h>`. -/
def GLUT_KEY_DOWN : Int := 103

/-- The constant `GLUT_KEY_PAGE_UP` of `<GL/glut.h>`. -/
def GLUT_KEY_PAGE_UP : Int := 104

/-- The constant `GLUT_KEY_PAGE_DOWN` of `<GL/glut.h>`. -/
def GLUT_KEY_PAGE_DOWN : Int := 105

/-- The special-key callback `special_key_pressed` (lines 122-164). -/
def special_key_pressed (key x y : Int) (s : State α ω) : State α ω :=
  if key = GLUT_KEY_LEFT then
    { s with camera := ⟨s.camera.i0 - 0.1, s.camera.i1, s.camera.i2⟩,
             look := ⟨s.look.i0 - 0.1, s.look.i1, s.look.i2⟩ }
  else if key = GLUT_KEY_RIGHT then
    { s with camera := ⟨s.camera.i0 + 0.1, s.camera.i1, s.camera.i2⟩,
             look := ⟨s.look.i0 + 0.1, s.look.i1, s.look.i2⟩ }
  else if key = GLUT_KEY_UP then
    { s with camera := ⟨s.camera.i0, s.camera.i1, s.camera.i2 - 0.1⟩,
             look := ⟨s.look.i0, s.look.i1, s.look.i2 - 0.1⟩ }
  else if key = GLUT_KEY_DOWN then
    { s with camera := ⟨s.camera.i0, s.camera.i1, s.camera.i2 + 0.1⟩,
             look := ⟨s.look.i0, s.look.i1, s.look.i2 + 0.1⟩ }
  else if key = GLUT_KEY_PAGE_UP then
    { s with camera := ⟨s.camera.i0, s.camera.i1 + 0.1, s.camera.i2⟩,
             look := ⟨s.look.i0, s.look.i1 + 0.1, s.look.i2⟩ }
  else if key = GLUT_KEY_PAGE_DOWN then
    { s with camera := ⟨s.camera.i0, s.camera.i1 - 0.1, s.camera.i2⟩,
             look := ⟨s.look.i0, s.look.i1 - 0.1, s.look.i2⟩ }
  else s

end MagicCube

/-! ## A sample scene over `ℚ`

Concrete inputs on which the embedding is evaluated: a math library on `ℚ`, a
horizontal plane as a concrete `Shape`, a camera ray and lights. -/

/-- Four Newton steps for the square root, started at `1`. -/
def newton_sqrt (a : ℚ) : ℚ :=
  let step := fun (x : ℚ) => (x + a / x) / 2
  step (step (step (step 1)))

/-- A math library on `ℚ`: `sqrt` by Newton steps, `exp` by its Taylor polynomial of
degree 3, and `angle` by the chord through the three exact values of `acos` at
`1`, `0`, `-1`. The values are exact at the arguments the sample scenes use
(`sqrt 1`, `exp 0`, the angle of parallel and of opposite unit vectors, up to `M_PI`). -/
def sampleFns : MathFns ℚ where
  sqrt := newton_sqrt
  exp := fun x => 1 + x + x ^ 2 / 2 + x ^ 3 / 6
  angle := fun a b =>
    M_PI / 2 *
      (1 - Vector3D.dot_product a b /
        (Vector3D.length newton_sqrt a * Vector3D.length newton_sqrt b))

/-- A concrete shape: the horizontal plane `z = h`, white, with specular exponent 1.
`getIntersection` solves `origin.z + t * direction.z = h`; `getNormal` is the unit
normal turned against the direction of the incident line. -/
def plane (h ka kd ks : ℚ) : Shape ℚ where
  position := ⟨0, 0, h⟩
  color := ⟨1, 1, 1⟩
  ambient_coefficient := ka
  diffuse_coefficient := kd
  specular_coefficient := ks
  reflection_coefficient := 0
  specular_exponent := 1
  getNormal := fun p l => ⟨p, if l.direction.z > 0 then ⟨0, 0, -1⟩ else ⟨0, 0, 1⟩⟩
  getIntersection := fun l =>
    if l.direction.z = 0 then -1 else (h - l.origin.z) / l.direction.z
  getColorAt := fun _ => ⟨1, 1, 1⟩

/-- The floor `z = 0` with ambient coefficient `1/2`, diffuse coefficient `1/4` and no
specular part. -/
def floor_shape : Shape ℚ := plane 0 (1 / 2) (1 / 4) 0

/-- A camera ray looking straight down from height `h` above the origin. -/
def down_ray (h : ℚ) : Line ℚ := ⟨⟨0, 0, h⟩, ⟨0, 0, -1⟩⟩

/-- A white point light at `(0, 0, 1)` with falloff `0`. -/
def top_light : Light ℚ := ⟨⟨0, 0, 1⟩, ⟨1, 1, 1⟩, 0⟩

/-- A white spot light at `(0, 0, 1)` with falloff `0`, shining upwards (direction
`(0, 0, 1)`, away from the floor) in a cone of 30 degrees. -/
def up_spot : SpotLight ℚ := ⟨⟨⟨0, 0, 1⟩, ⟨1, 1, 1⟩, 0⟩, ⟨0, 0, 1⟩, 30⟩

/-- The colour black, the value of `color_to_return` on entry in the sample runs. -/
def black : Color ℚ := ⟨0, 0, 0⟩

/-! ## Theorems -/

section VectorTheorems

variable {α : Type} [LinearOrderedField α]

/-- C9: for every two vectors `a` and `b`, `a.dot_product(b)` equals
`b.dot_product(a)`. -/
theorem dot_product_comm (a b : Vector3D α) :
    Vector3D.dot_product a b = Vector3D.dot_product b a := by
  simp only [Vector3D.dot_product]
  ring

/-- C10: for every two vectors `a` and `b`, the cross product `a * b` compares equal
(by `operator==`) to `(b * a) * (-1)`, the component-wise negation of `b * a`. -/
theorem cross_anticomm (a b : Vector3D α) :
    Vector3D.eq (Vector3D.cross a b) (Vector3D.scale (Vector3D.cross b a) (-1)) = true := by
  simp only [Vector3D.eq, Vector3D.cross, Vector3D.scale, Bool.and_eq_true, decide_eq_true_eq]
  refine ⟨⟨?_, ?_⟩, ?_⟩ <;> ring

/-- C11: over exact real arithmetic, for every vector `a` with non-zero length, after
`a.normalize()` the vector has `length()` equal to 1 and is a positive scalar multiple
of the original `a`. -/
theorem normalize_unit (a : Vector3D ℝ) (h : Vector3D.length Real.sqrt a ≠ 0) :
    Vector3D.length Real.sqrt (Vector3D.normalize Real.sqrt a) = 1 ∧
    ∃ c : ℝ, 0 < c ∧ Vector3D.normalize Real.sqrt a = Vector3D.scale a c := by
  obtain ⟨x, y, z⟩ := a
  simp only [Vector3D.length, Vector3D.normalize, Vector3D.scale] at h ⊢
  have hlen : 0 < Real.sqrt (x * x + y * y + z * z) :=
    lt_of_le_of_ne (Real.sqrt_nonneg _) (Ne.symm h)
  have hs : 0 < x * x + y * y + z * z := Real.sqrt_pos.mp hlen
  have hsq : Real.sqrt (x * x + y * y + z * z) * Real.sqrt (x * x + y * y + z * z)
      = x * x + y * y + z * z := Real.mul_self_sqrt hs.le
  constructor
  · have harg : x / Real.sqrt (x * x + y * y + z * z) *
          (x / Real.sqrt (x * x + y * y + z * z)) +
        y / Real.sqrt (x * x + y * y + z * z) * (y / Real.sqrt (x * x + y * y + z * z)) +
        z / Real.sqrt (x * x + y * y + z * z) * (z / Real.sqrt (x * x + y * y + z * z))
        = 1 := by
      rw [div_mul_div_comm, div_mul_div_comm, div_mul_div_comm, hsq, ← add_div, ← add_div]
      exact div_self hs.ne'
    rw [harg, Real.sqrt_one]
  · refine ⟨1 / Real.sqrt (x * x + y * y + z * z), by positivity, ?_⟩
    simp only [Vector3D.mk.injEq]
    refine ⟨?_, ?_, ?_⟩ <;> ring

/-- Witness of C11: the vector `(3, 0, 4)` has non-zero length. -/
theorem normalize_unit_witness :
    Vector3D.length Real.sqrt (Vector3D.normalize Real.sqrt ⟨3, 0, 4⟩) = 1 ∧
    ∃ c : ℝ, 0 < c ∧
      Vector3D.normalize Real.sqrt ⟨3, 0, 4⟩ = Vector3D.scale ⟨3, 0, 4⟩ c :=
  normalize_unit ⟨3, 0, 4⟩ (by
    simp only [Vector3D.length]
    exact Real.sqrt_ne_zero'.mpr (by norm_num))

/-- A rotation by the angle 0 leaves the vector equal (by `operator==`) to its value
before the call, for every `cos` and `sin` with `cos(0) = 1` and `sin(0) = 0`. -/
theorem rotate_zero_of_cos_sin (cos sin : α → α) (hcos : cos 0 = 1) (hsin : sin 0 = 0)
    (v axis : Vector3D α) :
    Vector3D.eq (Vector3D.rotate cos sin v axis 0) v = true := by
  simp [Vector3D.eq, Vector3D.rotate, Vector3D.add, Vector3D.scale, hcos, hsin]

/-- C12: for every vector `v` and every axis, `v.rotate(axis, 0)` leaves `v` equal (by
`operator==`) to its value before the call. -/
theorem rotate_zero (v axis : Vector3D ℝ) :
    Vector3D.eq (Vector3D.rotate Real.cos Real.sin v axis 0) v = true :=
  rotate_zero_of_cos_sin Real.cos Real.sin Real.cos_zero Real.sin_zero v axis

/-- C13: over exact real arithmetic, for every unit-length axis, every angle `θ` and
every vector `v` orthogonal to the axis, `v.rotate(axis, θ)` equals the full Rodrigues
formula `v*cos(θ) + (axis × v)*sin(θ) + axis*(axis·v)*(1 - cos(θ))`, has the same
length as `v` and is still orthogonal to the axis. -/
theorem rotate_orthogonal (axis v : Vector3D ℝ) (θ : ℝ)
    (hunit : Vector3D.length Real.sqrt axis = 1)
    (horth : Vector3D.dot_product axis v = 0) :
    Vector3D.rotate Real.cos Real.sin v axis θ
      = Vector3D.rodrigues_spec Real.cos Real.sin v axis θ ∧
    Vector3D.length Real.sqrt (Vector3D.rotate Real.cos Real.sin v axis θ)
      = Vector3D.length Real.sqrt v ∧
    Vector3D.dot_product axis (Vector3D.rotate Real.cos Real.sin v axis θ) = 0 := by
  have hcs : Real.cos θ * Real.cos θ + Real.sin θ * Real.sin θ = 1 := by
    have := Real.cos_sq_add_sin_sq θ
    nlinarith
  obtain ⟨a1, a2, a3⟩ := axis
  obtain ⟨x, y, z⟩ := v
  simp only [Vector3D.length, Vector3D.dot_product] at hunit horth
  have hu : a1 * a1 + a2 * a2 + a3 * a3 = 1 := by
    have := (Real.sqrt_eq_one).mp hunit
    exact this
  refine ⟨?_, ?_, ?_⟩
  · simp only [Vector3D.rotate, Vector3D.rodrigues_spec, Vector3D.add, Vector3D.scale,
      Vector3D.cross, Vector3D.dot_product, horth, Vector3D.mk.injEq]
    refine ⟨?_, ?_, ?_⟩ <;> ring
  · simp only [Vector3D.length, Vector3D.rotate, Vector3D.add, Vector3D.scale,
      Vector3D.cross]
    congr 1
    linear_combination (x * x + y * y + z * z) * hcs
      + (Real.sin θ * Real.sin θ * (x * x + y * y + z * z)) * hu
      - (Real.sin θ * Real.sin θ * (a1 * x + a2 * y + a3 * z)) * horth
  · simp only [Vector3D.rotate, Vector3D.add, Vector3D.scale, Vector3D.cross,
      Vector3D.dot_product]
    linear_combination (Real.cos θ) * horth

/-- Witness of C13: the axis `(0, 0, 1)` has unit length and `(1, 0, 0)` is orthogonal
to it; the angle is 1 radian. -/
theorem rotate_orthogonal_witness :
    Vector3D.rotate Real.cos Real.sin (⟨1, 0, 0⟩ : Vector3D ℝ) ⟨0, 0, 1⟩ 1
      = Vector3D.rodrigues_spec Real.cos Real.sin ⟨1, 0, 0⟩ ⟨0, 0, 1⟩ 1 ∧
    Vector3D.length Real.sqrt (Vector3D.rotate Real.cos Real.sin ⟨1, 0, 0⟩ ⟨0, 0, 1⟩ 1)
      = Vector3D.length Real.sqrt ⟨1, 0, 0⟩ ∧
    Vector3D.dot_product ⟨0, 0, 1⟩
      (Vector3D.rotate Real.cos Real.sin (⟨1, 0, 0⟩ : Vector3D ℝ) ⟨0, 0, 1⟩ 1) = 0 :=
  rotate_orthogonal ⟨0, 0, 1⟩ ⟨1, 0, 0⟩ 1
    (by simp [Vector3D.length]) (by simp [Vector3D.dot_product])

/-- C14: `Vector3D::rotate` omits the parallel-component term. Over exact real
arithmetic, for every unit-length axis, every angle `θ` with `cos(θ) ≠ 1` and every
non-zero `v` parallel to the axis (`v = axis * k`), `v.rotate(axis, θ)` yields
`v*cos(θ)`, which differs from `v` (by `operator==`), whereas the full Rodrigues
formula leaves `v` fixed. -/
theorem rotate_parallel (axis v : Vector3D ℝ) (θ k : ℝ)
    (hunit : Vector3D.length Real.sqrt axis = 1)
    (hpar : v = Vector3D.scale axis k) (hv : v ≠ ⟨0, 0, 0⟩) (hcos : Real.cos θ ≠ 1) :
    Vector3D.rotate Real.cos Real.sin v axis θ = Vector3D.scale v (Real.cos θ) ∧
    Vector3D.eq (Vector3D.rotate Real.cos Real.sin v axis θ) v = false ∧
    Vector3D.rodrigues_spec Real.cos Real.sin v axis θ = v := by
  subst hpar
  obtain ⟨a1, a2, a3⟩ := axis
  simp only [Vector3D.length] at hunit
  have hu : a1 * a1 + a2 * a2 + a3 * a3 = 1 := Real.sqrt_eq_one.mp hunit
  have hc : Real.cos θ - 1 ≠ 0 := sub_ne_zero.mpr hcos
  have hrot : Vector3D.rotate Real.cos Real.sin (Vector3D.scale ⟨a1, a2, a3⟩ k)
      ⟨a1, a2, a3⟩ θ = Vector3D.scale (Vector3D.scale ⟨a1, a2, a3⟩ k) (Real.cos θ) := by
    simp only [Vector3D.rotate, Vector3D.add, Vector3D.scale, Vector3D.cross,
      Vector3D.mk.injEq]
    refine ⟨?_, ?_, ?_⟩ <;> ring
  refine ⟨hrot, ?_, ?_⟩
  · rw [hrot]
    simp only [Vector3D.eq, Vector3D.scale, Bool.and_eq_false_iff, decide_eq_false_iff_not]
    by_contra hall
    push_neg at hall
    obtain ⟨⟨h1, h2⟩, h3⟩ := hall
    apply hv
    simp only [Vector3D.scale, Vector3D.mk.injEq]
    have e1 : a1 * k * (Real.cos θ - 1) = 0 := by linarith
    have e2 : a2 * k * (Real.cos θ - 1) = 0 := by linarith
    have e3 : a3 * k * (Real.cos θ - 1) = 0 := by linarith
    exact ⟨(mul_eq_zero.mp e1).resolve_right hc, (mul_eq_zero.mp e2).resolve_right hc,
      (mul_eq_zero.mp e3).resolve_right hc⟩
  · simp only [Vector3D.rodrigues_spec, Vector3D.add, Vector3D.scale, Vector3D.cross,
      Vector3D.dot_product, Vector3D.mk.injEq]
    refine ⟨?_, ?_, ?_⟩
    · linear_combination (a1 * k * (1 - Real.cos θ)) * hu
    · linear_combination (a2 * k * (1 - Real.cos θ)) * hu
    · linear_combination (a3 * k * (1 - Real.cos θ)) * hu

/-- Witness of C14: the axis `(0, 0, 1)`, the parallel vector `(0, 0, 2)` and the angle
`π`, whose cosine is `-1`. -/
theorem rotate_parallel_witness :
    Vector3D.rotate Real.cos Real.sin (Vector3D.scale (⟨0, 0, 1⟩ : Vector3D ℝ) 2)
        ⟨0, 0, 1⟩ Real.pi
      = Vector3D.scale (Vector3D.scale ⟨0, 0, 1⟩ 2) (Real.cos Real.pi) ∧
    Vector3D.eq (Vector3D.rotate Real.cos Real.sin
      (Vector3D.scale (⟨0, 0, 1⟩ : Vector3D ℝ) 2) ⟨0, 0, 1⟩ Real.pi)
        (Vector3D.scale ⟨0, 0, 1⟩ 2) = false ∧
    Vector3D.rodrigues_spec Real.cos Real.sin (Vector3D.scale (⟨0, 0, 1⟩ : Vector3D ℝ) 2)
      ⟨0, 0, 1⟩ Real.pi = Vector3D.scale ⟨0, 0, 1⟩ 2 :=
  rotate_parallel ⟨0, 0, 1⟩ (Vector3D.scale ⟨0, 0, 1⟩ 2) Real.pi 2
    (by simp [Vector3D.length]) rfl
    (by simp [Vector3D.scale])
    (by rw [Real.cos_pi]; norm_num)

end VectorTheorems

section IntersectTheorems

variable {α : Type} [LinearOrderedField α]

/-- Unfolding of `Shape::intersect` on a hit with a non-zero recursion level: the
returned value is the ray parameter and the colour is the second component of the
state after the point-light loop and the spot-light loop. -/
theorem intersect_of_hit (m : MathFns α) (sh : Shape α) (line : Line α)
    (lights : List (Light α)) (spot_lights : List (SpotLight α))
    (shapes : List (Shape α)) (color_to_return : Color α)
    (current_level recursion_level : Int)
    (hit : 0 ≤ sh.getIntersection line) (hrec : recursion_level ≠ 0) :
    intersect m sh line lights spot_lights shapes color_to_return current_level
        recursion_level =
      (sh.getIntersection line,
        (spot_lights.foldl
          (spot_light_step m sh line shapes (sh.getIntersection line)
            (line.getPoint (sh.getIntersection line))
            (sh.getColorAt (line.getPoint (sh.getIntersection line))))
          (lights.foldl
            (point_light_step m sh line shapes (sh.getIntersection line)
              (line.getPoint (sh.getIntersection line))
              (sh.getColorAt (line.getPoint (sh.getIntersection line))))
            (Color.scale (sh.getColorAt (line.getPoint (sh.getIntersection line)))
              sh.ambient_coefficient, color_to_return))).2) := by
  unfold intersect
  simp only [not_lt.mpr hit, hrec, if_false]

/-- With no point light and no spot light, a hit at a non-zero recursion level leaves
`color_to_return` as it was on entry: the ambient colour computed in `color_value` is
never stored. -/
theorem intersect_no_lights_unchanged (m : MathFns α) (sh : Shape α) (line : Line α)
    (shapes : List (Shape α)) (color_to_return : Color α)
    (current_level recursion_level : Int)
    (hit : 0 ≤ sh.getIntersection line) (hrec : recursion_level ≠ 0) :
    intersect m sh line [] [] shapes color_to_return current_level recursion_level =
      (sh.getIntersection line, color_to_return) := by
  rw [intersect_of_hit m sh line [] [] shapes color_to_return current_level
    recursion_level hit hrec]
  rfl

/-- C1 (the code diverges from the claim): the camera ray from `(0, 0, 1)` straight
down hits the white floor `z = 0` (ambient coefficient `1/2`) at `t = 1`; with no
light and no spot light and recursion level 1, `Shape::intersect` leaves
`color_to_return` black, while `getColorAt(hit point) * ambient_coefficient` is
`(1/2, 1/2, 1/2)`. -/
theorem intersect_no_lights_sample (m : MathFns ℚ) :
    floor_shape.getIntersection (down_ray 1) = 1 ∧
    intersect m floor_shape (down_ray 1) [] [] [floor_shape] black 0 1 = (1, black) ∧
    Color.scale (floor_shape.getColorAt ((down_ray 1).getPoint 1))
      floor_shape.ambient_coefficient = ⟨1 / 2, 1 / 2, 1 / 2⟩ := by
  have ht : floor_shape.getIntersection (down_ray 1) = 1 := by
    norm_num [floor_shape, plane, down_ray]
  refine ⟨ht, ?_, ?_⟩
  · have h := intersect_no_lights_unchanged m floor_shape (down_ray 1) [floor_shape] black
      0 1 (by rw [ht]; norm_num) (by decide)
    rw [h, ht]
  · norm_num [floor_shape, plane, Color.scale]

/-- C2: when `recursion_level == 0` and the ray hits (`getIntersection(line) = t >= 0`),
`Shape::intersect` returns exactly `t` and leaves `color_to_return` equal to its value
on entry, for every shape, ray, light list, spot-light list and shape list. -/
theorem intersect_depth_zero (m : MathFns α) (sh : Shape α) (line : Line α)
    (lights : List (Light α)) (spot_lights : List (SpotLight α))
    (shapes : List (Shape α)) (color_to_return : Color α)
    (current_level recursion_level : Int)
    (hrec : recursion_level = 0) (hit : 0 ≤ sh.getIntersection line) :
    intersect m sh line lights spot_lights shapes color_to_return current_level
        recursion_level = (sh.getIntersection line, color_to_return) := by
  unfold intersect
  simp only [not_lt.mpr hit, hrec, if_false, if_true]

/-- Witness of C2: the down ray hits the floor at `t = 1`; at recursion level 0 the
result is `(1, black)` although a light and a spot light are present. -/
theorem intersect_depth_zero_witness :
    0 ≤ floor_shape.getIntersection (down_ray 1) ∧
    intersect sampleFns floor_shape (down_ray 1) [top_light] [up_spot] [floor_shape]
      black 0 0 = (floor_shape.getIntersection (down_ray 1), black) :=
  ⟨by norm_num [floor_shape, plane, down_ray],
    intersect_depth_zero sampleFns floor_shape (down_ray 1) [top_light] [up_spot]
      [floor_shape] black 0 0 rfl (by norm_num [floor_shape, plane, down_ray])⟩

/-- C3: when `getIntersection(line)` is negative, `Shape::intersect` returns the
sentinel `-1` and leaves `color_to_return` equal to its value on entry, for every
shape, ray, scene and recursion level (0 included). -/
theorem intersect_no_hit (m : MathFns α) (sh : Shape α) (line : Line α)
    (lights : List (Light α)) (spot_lights : List (SpotLight α))
    (shapes : List (Shape α)) (color_to_return : Color α)
    (current_level recursion_level : Int)
    (miss : sh.getIntersection line < 0) :
    intersect m sh line lights spot_lights shapes color_to_return current_level
        recursion_level = (-1, color_to_return) := by
  unfold intersect
  simp only [miss, if_true]

/-- Witness of C3: a ray leaving the floor upwards from `(0, 0, 1)` has
`getIntersection = -1`; the result is `(-1, black)`. -/
theorem intersect_no_hit_witness :
    floor_shape.getIntersection ⟨⟨0, 0, 1⟩, ⟨0, 0, 1⟩⟩ < 0 ∧
    intersect sampleFns floor_shape ⟨⟨0, 0, 1⟩, ⟨0, 0, 1⟩⟩ [top_light] [up_spot]
      [floor_shape] black 0 3 = (-1, black) :=
  ⟨by norm_num [floor_shape, plane],
    intersect_no_hit sampleFns floor_shape ⟨⟨0, 0, 1⟩, ⟨0, 0, 1⟩⟩ [top_light] [up_spot]
      [floor_shape] black 0 3 (by norm_num [floor_shape, plane])⟩

/-- C4 (the code diverges from the claim): the down ray hits the floor at `t = 1`
(ambient `1/2`, diffuse `1/4`); two unoccluded white point lights at `(0, 0, 1)` with
falloff 0 each have the diffuse and specular term `(1/4, 1/4, 1/4)`. The claimed colour
added to a black `color_to_return` is ambient plus the two terms, `(1, 1, 1)`;
`Shape::intersect` yields `(7/4, 7/4, 7/4)`, because it adds the running `color_value`
(ambient and all earlier terms included) once per visible light. -/
theorem intersect_two_lights_sample (m : MathFns ℚ) (hexp : m.exp 0 = 1) :
    light_term floor_shape (down_ray 1) (floor_shape.getColorAt ((down_ray 1).getPoint 1))
        (floor_shape.getNormal ((down_ray 1).getPoint 1)
          (light_line top_light.position ((down_ray 1).getPoint 1)))
        (light_line top_light.position ((down_ray 1).getPoint 1)) top_light.color
        (m.exp 0) = ⟨1 / 4, 1 / 4, 1 / 4⟩ ∧
    is_visible [floor_shape] (light_line top_light.position ((down_ray 1).getPoint 1)) 1
      = true ∧
    intersect m floor_shape (down_ray 1) [top_light, top_light] [] [floor_shape] black 0 1
      = (1, ⟨7 / 4, 7 / 4, 7 / 4⟩) := by
  refine ⟨?_, ?_, ?_⟩
  · norm_num [light_term, phong_component, reflection_vector, light_line, floor_shape, plane, down_ray, top_light,
      Line.getPoint, Line.getDirection, Vector3D.add, Vector3D.sub, Vector3D.scale,
      Vector3D.dot_product, Color.add, Color.scale, Color.mul, hexp]
  · norm_num [is_visible, light_line, floor_shape, plane, down_ray, top_light,
      Line.getPoint, Vector3D.add, Vector3D.sub, Vector3D.scale]
  · norm_num [intersect, point_light_step, is_visible, light_term, phong_component, reflection_vector,
      scaling_factor, light_line,
      floor_shape, plane, down_ray, top_light, black,
      Line.getPoint, Line.getDirection, Vector3D.add, Vector3D.sub, Vector3D.scale,
      Vector3D.dot_product, Vector3D.length, Color.add, Color.scale, Color.mul, hexp]

/-- Witness of the C4 evaluation: the sample math library has `exp 0 = 1`. -/
theorem intersect_two_lights_sample_witness :
    sampleFns.exp 0 = 1 ∧
    intersect sampleFns floor_shape (down_ray 1) [top_light, top_light] [] [floor_shape]
      black 0 1 = (1, ⟨7 / 4, 7 / 4, 7 / 4⟩) :=
  ⟨by norm_num [sampleFns],
    (intersect_two_lights_sample sampleFns (by norm_num [sampleFns])).2.2⟩

/-- C5 (the code diverges from the claim): the camera ray from `(0, 0, 1/4)` straight
down hits the floor at `t = 1/4`, hit point `P = (0, 0, 0)`; the point light is at
`L = (0, 0, 1)`, so the shadow ray has a unit direction and `|L - P| = 1`. The plane
`z = 3/2` meets the shadow ray at the positive distance `1/2 < 1`, yet the test of
line 113 compares `1/2` with `t - 0.0001 = 0.2499`, so the light stays visible and its
diffuse term `(1/4, 1/4, 1/4)` is added: the colour is `(3/4, 3/4, 3/4)`.
Likewise a plane `z = 1/2`, which lies between the light and the hit point (on the ray
from `L` towards `P` it is at distance `1/2`), does not block the light, whatever the
primary parameter (here `t = 1`): on the shadow ray of the code, which leaves `L` away
from `P`, it is at `-1/2`. -/
theorem intersect_blocked_light_sample (m : MathFns ℚ) (hexp : m.exp 0 = 1)
    (hsqrt : m.sqrt 1 = 1) :
    (down_ray (1 / 4)).getPoint (floor_shape.getIntersection (down_ray (1 / 4)))
      = ⟨0, 0, 0⟩ ∧
    Vector3D.length m.sqrt (light_line top_light.position ⟨0, 0, 0⟩).direction = 1 ∧
    0 < (plane (3 / 2) 0 0 0).getIntersection (light_line top_light.position ⟨0, 0, 0⟩) ∧
    (plane (3 / 2) 0 0 0).getIntersection (light_line top_light.position ⟨0, 0, 0⟩)
      < Vector3D.length m.sqrt (Vector3D.sub top_light.position ⟨0, 0, 0⟩) ∧
    light_term floor_shape (down_ray (1 / 4)) (floor_shape.getColorAt ⟨0, 0, 0⟩)
        (floor_shape.getNormal ⟨0, 0, 0⟩ (light_line top_light.position ⟨0, 0, 0⟩))
        (light_line top_light.position ⟨0, 0, 0⟩) top_light.color (m.exp 0)
      = ⟨1 / 4, 1 / 4, 1 / 4⟩ ∧
    intersect m floor_shape (down_ray (1 / 4)) [top_light] []
      [floor_shape, plane (3 / 2) 0 0 0] black 0 1 = (1 / 4, ⟨3 / 4, 3 / 4, 3 / 4⟩) ∧
    (plane (1 / 2) 0 0 0).getIntersection
      ⟨top_light.position, Vector3D.sub ⟨0, 0, 0⟩ top_light.position⟩ = 1 / 2 ∧
    (plane (1 / 2) 0 0 0).getIntersection (light_line top_light.position ⟨0, 0, 0⟩)
      = -(1 / 2) ∧
    intersect m floor_shape (down_ray 1) [top_light] []
      [floor_shape, plane (1 / 2) 0 0 0] black 0 1 = (1, ⟨3 / 4, 3 / 4, 3 / 4⟩) := by
  refine ⟨?_, ?_, ?_, ?_, ?_, ?_, ?_, ?_, ?_⟩
  · norm_num [floor_shape, plane, down_ray, Line.getPoint, Vector3D.add, Vector3D.scale]
  · norm_num [light_line, top_light, Vector3D.length, Vector3D.sub, hsqrt]
  · norm_num [light_line, top_light, plane, Vector3D.sub]
  · norm_num [light_line, top_light, plane, Vector3D.length, Vector3D.sub, hsqrt]
  · norm_num [light_term, phong_component, reflection_vector, light_line, floor_shape, plane, down_ray, top_light,
      Line.getDirection, Vector3D.sub, Vector3D.scale,
      Vector3D.dot_product, Color.add, Color.scale, Color.mul, hexp]
  · norm_num [intersect, point_light_step, is_visible, light_term, phong_component, reflection_vector,
      scaling_factor, light_line,
      floor_shape, plane, down_ray, top_light, black,
      Line.getPoint, Line.getDirection, Vector3D.add, Vector3D.sub, Vector3D.scale,
      Vector3D.dot_product, Vector3D.length, Color.add, Color.scale, Color.mul, hexp]
  · norm_num [top_light, plane, Vector3D.sub]
  · norm_num [light_line, top_light, plane, Vector3D.sub]
  · norm_num [intersect, point_light_step, is_visible, light_term, phong_component, reflection_vector,
      scaling_factor, light_line,
      floor_shape, plane, down_ray, top_light, black,
      Line.getPoint, Line.getDirection, Vector3D.add, Vector3D.sub, Vector3D.scale,
      Vector3D.dot_product, Vector3D.length, Color.add, Color.scale, Color.mul, hexp]

/-- Witness of the C5 evaluation: the sample math library has `exp 0 = 1` and
`sqrt 1 = 1`. -/
theorem intersect_blocked_light_sample_witness :
    sampleFns.exp 0 = 1 ∧ sampleFns.sqrt 1 = 1 ∧
    intersect sampleFns floor_shape (down_ray (1 / 4)) [top_light] []
      [floor_shape, plane (3 / 2) 0 0 0] black 0 1 = (1 / 4, ⟨3 / 4, 3 / 4, 3 / 4⟩) :=
  ⟨by norm_num [sampleFns], by norm_num [sampleFns, newton_sqrt],
    (intersect_blocked_light_sample sampleFns (by norm_num [sampleFns])
      (by norm_num [sampleFns, newton_sqrt])).2.2.2.2.2.1⟩

/-- C6 (the code diverges from the claim): the spot light at `L = (0, 0, 1)` shines
upwards, `d = (0, 0, 1)`, in a cone of 30 degrees; the hit point `P = (0, 0, 0)` lies
behind it, the light-to-point vector `P - L` being `-d`. When the angle between `d` and
`P - L` is more than 30 degrees (it is 180) but the angle between `d` and itself is 0,
the cone test of line 189, made on `L - P = d`, passes and the unoccluded spot light
adds its colour: `color_to_return` goes from black to `(3/4, 3/4, 3/4)`. -/
theorem intersect_spot_behind_sample (m : MathFns ℚ) (hexp : m.exp 0 = 1)
    (hself : m.angle ⟨0, 0, 1⟩ ⟨0, 0, 1⟩ = 0)
    (hout : m.angle up_spot.direction
      (Vector3D.sub ((down_ray 1).getPoint 1) up_spot.position) * 180 / M_PI
        > up_spot.angle) :
    Vector3D.sub ((down_ray 1).getPoint 1) up_spot.position
      = Vector3D.scale up_spot.direction (-1) ∧
    is_visible [floor_shape] (light_line up_spot.position ((down_ray 1).getPoint 1)) 1
      = true ∧
    intersect m floor_shape (down_ray 1) [] [up_spot] [floor_shape] black 0 1
      = (1, ⟨3 / 4, 3 / 4, 3 / 4⟩) := by
  refine ⟨?_, ?_, ?_⟩
  · norm_num [up_spot, down_ray, Line.getPoint, Vector3D.add, Vector3D.sub, Vector3D.scale]
  · norm_num [is_visible, light_line, floor_shape, plane, down_ray, up_spot,
      Line.getPoint, Vector3D.add, Vector3D.sub, Vector3D.scale]
  · norm_num [intersect, spot_light_step, is_visible, light_term, phong_component, reflection_vector,
      scaling_factor, light_line,
      floor_shape, plane, down_ray, up_spot, black,
      Line.getPoint, Line.getDirection, Vector3D.add, Vector3D.sub, Vector3D.scale,
      Vector3D.dot_product, Vector3D.length, Color.add, Color.scale, Color.mul, hexp,
      hself]

/-- Witness of the C6 evaluation: in the sample math library the angle between
`(0, 0, 1)` and itself is 0 and the angle between `d` and `P - L` is 180 degrees. -/
theorem intersect_spot_behind_sample_witness :
    sampleFns.angle up_spot.direction
      (Vector3D.sub ((down_ray 1).getPoint 1) up_spot.position) * 180 / M_PI = 180 ∧
    intersect sampleFns floor_shape (down_ray 1) [] [up_spot] [floor_shape] black 0 1
      = (1, ⟨3 / 4, 3 / 4, 3 / 4⟩) :=
  ⟨by
    norm_num [sampleFns, newton_sqrt, M_PI, up_spot, down_ray, Line.getPoint,
      Vector3D.add, Vector3D.sub, Vector3D.scale, Vector3D.dot_product, Vector3D.length],
    (intersect_spot_behind_sample sampleFns (by norm_num [sampleFns])
      (by norm_num [sampleFns, newton_sqrt, Vector3D.dot_product, Vector3D.length])
      (by
        norm_num [sampleFns, newton_sqrt, M_PI, up_spot, down_ray, Line.getPoint,
          Vector3D.add, Vector3D.sub, Vector3D.scale, Vector3D.dot_product,
          Vector3D.length])).2.2⟩

/-- C7 (the code diverges from the claim): the shadow ray built for a light at `L` and
a hit point `P ≠ L` has origin `L` and direction `L - P`; with
`pointAt(s) = origin + direction * s` it passes through `P` exactly at `s = -1`, so it
reaches `P` at no parameter `s > 0`: the ray runs from the light away from the hit
point. -/
theorem light_line_reaches_hit_point_iff (L P : Vector3D α) (hne : L ≠ P) :
    (light_line L P).origin = L ∧
    (∀ s : α, (light_line L P).getPoint s = P ↔ s = -1) ∧
    ¬ ∃ s : α, 0 < s ∧ (light_line L P).getPoint s = P := by
  have key : ∀ s : α, (light_line L P).getPoint s = P ↔ s = -1 := by
    intro s
    obtain ⟨lx, ly, lz⟩ := L
    obtain ⟨px, py, pz⟩ := P
    simp only [light_line, Line.getPoint, Vector3D.add, Vector3D.scale, Vector3D.sub,
      Vector3D.mk.injEq]
    constructor
    · rintro ⟨hx, hy, hz⟩
      by_contra hs
      have hs1 : s + 1 ≠ 0 := fun h => hs (by linarith)
      apply hne
      have ex : (lx - px) * (s + 1) = 0 := by linarith
      have ey : (ly - py) * (s + 1) = 0 := by linarith
      have ez : (lz - pz) * (s + 1) = 0 := by linarith
      have fx := (mul_eq_zero.mp ex).resolve_right hs1
      have fy := (mul_eq_zero.mp ey).resolve_right hs1
      have fz := (mul_eq_zero.mp ez).resolve_right hs1
      simp only [Vector3D.mk.injEq]
      exact ⟨by linarith, by linarith, by linarith⟩
    · rintro rfl
      refine ⟨?_, ?_, ?_⟩ <;> ring
  refine ⟨rfl, key, ?_⟩
  rintro ⟨s, hs, hP⟩
  have := (key s).mp hP
  linarith

/-- Witness of C7's evaluation: for the light at `(0, 0, 1)` and the hit point
`(0, 0, 0)` the shadow ray meets the hit point only at `s = -1`. -/
theorem light_line_reaches_hit_point_iff_witness :
    (light_line (⟨0, 0, 1⟩ : Vector3D ℚ) ⟨0, 0, 0⟩).origin = ⟨0, 0, 1⟩ ∧
    (∀ s : ℚ, (light_line (⟨0, 0, 1⟩ : Vector3D ℚ) ⟨0, 0, 0⟩).getPoint s = ⟨0, 0, 0⟩
      ↔ s = -1) ∧
    ¬ ∃ s : ℚ, 0 < s ∧ (light_line (⟨0, 0, 1⟩ : Vector3D ℚ) ⟨0, 0, 0⟩).getPoint s
      = ⟨0, 0, 0⟩ :=
  light_line_reaches_hit_point_iff ⟨0, 0, 1⟩ ⟨0, 0, 0⟩ (by decide)

/-- C8: the reflection step is not wired into the result. Two runs of
`Shape::intersect` on the same ray and scene that differ in `reflection_coefficient`,
in `current_level` and in `recursion_level` (both values non-zero) produce the same
return value and the same `color_to_return`. -/
theorem intersect_ignores_reflection (m : MathFns α) (sh : Shape α) (line : Line α)
    (lights : List (Light α)) (spot_lights : List (SpotLight α))
    (shapes : List (Shape α)) (color_to_return : Color α)
    (k1 k2 : α) (current_level1 current_level2 recursion_level1 recursion_level2 : Int)
    (h1 : recursion_level1 ≠ 0) (h2 : recursion_level2 ≠ 0) :
    intersect m { sh with reflection_coefficient := k1 } line lights spot_lights shapes
        color_to_return current_level1 recursion_level1 =
      intersect m { sh with reflection_coefficient := k2 } line lights spot_lights shapes
        color_to_return current_level2 recursion_level2 := by
  unfold intersect
  simp only [h1, h2, if_false]
  rfl

/-- Witness of C8: on the sample scene, reflection coefficient 0 at levels (0, 1) and
reflection coefficient 1 at levels (2, 5) give the same result. -/
theorem intersect_ignores_reflection_witness :
    intersect sampleFns { floor_shape with reflection_coefficient := 0 } (down_ray 1)
        [top_light] [up_spot] [floor_shape] black 0 1 =
      intersect sampleFns { floor_shape with reflection_coefficient := 1 } (down_ray 1)
        [top_light] [up_spot] [floor_shape] black 2 5 :=
  intersect_ignores_reflection sampleFns floor_shape (down_ray 1) [top_light] [up_spot]
    [floor_shape] black 0 1 0 2 1 5 (by decide) (by decide)


/-- The visibility loop answers `false` exactly when some shape of the list meets the
light line strictly between `0` and `t - 0.0001`. -/
theorem is_visible_eq_false_iff (shapes : List (Shape α)) (ll : Line α) (t : α) :
    is_visible shapes ll t = false ↔
      ∃ s ∈ shapes, 0 < s.getIntersection ll ∧ s.getIntersection ll < t - 0.0001 := by
  induction shapes with
  | nil => simp [is_visible]
  | cons s rest ih =>
    by_cases h : s.getIntersection ll > 0 ∧ s.getIntersection ll < t - 0.0001
    · have hex : ∃ s' ∈ s :: rest,
          0 < s'.getIntersection ll ∧ s'.getIntersection ll < t - 0.0001 :=
        ⟨s, List.mem_cons_self s rest, h.1, h.2⟩
      simp only [is_visible, h, and_self, if_true, hex]
    · have h' : ¬ (0 < s.getIntersection ll ∧ s.getIntersection ll < t - 0.0001) := h
      simp only [is_visible, h, if_false, ih, List.mem_cons, exists_eq_or_imp, h', false_or]


/-- An occluded point light leaves the state `(color_value, color_to_return)` as it
is. -/
theorem point_light_step_of_occluded (m : MathFns α) (sh : Shape α) (line : Line α)
    (shapes : List (Shape α)) (t : α) (P : Vector3D α) (base : Color α)
    (st : Color α × Color α) (l : Light α)
    (h : is_visible shapes (light_line l.position P) t = false) :
    point_light_step m sh line shapes t P base st l = st := by
  simp [point_light_step, h]


/-- An occluded spot light leaves the state `(color_value, color_to_return)` as it
is. -/
theorem spot_light_step_of_occluded (m : MathFns α) (sh : Shape α) (line : Line α)
    (shapes : List (Shape α)) (t : α) (P : Vector3D α) (base : Color α)
    (st : Color α × Color α) (l : SpotLight α)
    (h : is_visible shapes (light_line l.position P) t = false) :
    spot_light_step m sh line shapes t P base st l = st := by
  simp [spot_light_step, h]


/-- A fold whose step is the identity on every element of the list is the identity. -/
theorem foldl_eq_of_forall_step_eq {σ β : Type} (f : σ → β → σ) (xs : List β)
    (h : ∀ x ∈ xs, ∀ st, f st x = st) (st : σ) : xs.foldl f st = st := by
  induction xs generalizing st with
  | nil => rfl
  | cons x rest ih =>
    rw [List.foldl_cons, h x (List.mem_cons_self x rest) st]
    exact ih (fun y hy => h y (List.mem_cons_of_mem x hy)) st


/-- Over the reals the attenuation of the code is `exp(-falloff * |v|²)`. -/
theorem scaling_factor_real (v : Vector3D ℝ) (falloff : ℝ) :
    scaling_factor Real.sqrt Real.exp v falloff
      = Real.exp (-falloff * (v.x ^ 2 + v.y ^ 2 + v.z ^ 2)) := by
  have hs : 0 ≤ v.x * v.x + v.y * v.y + v.z * v.z :=
    add_nonneg (add_nonneg (mul_self_nonneg _) (mul_self_nonneg _)) (mul_self_nonneg _)
  have hsq := Real.mul_self_sqrt hs
  simp only [scaling_factor, Vector3D.length]
  congr 1
  calc -1 * Real.sqrt (v.x * v.x + v.y * v.y + v.z * v.z) *
        Real.sqrt (v.x * v.x + v.y * v.y + v.z * v.z) * falloff
      = -falloff * (Real.sqrt (v.x * v.x + v.y * v.y + v.z * v.z) *
        Real.sqrt (v.x * v.x + v.y * v.y + v.z * v.z)) := by ring
    _ = -falloff * (v.x ^ 2 + v.y ^ 2 + v.z ^ 2) := by rw [hsq]; ring

/-- C15: occluded lights are skipped entirely. Removing from the lights list and from
the spot-lights list any lights for which some shape in `shapes` returns
`getIntersection(light_line)` strictly between `0` and `t - 0.0001` (`t` the parameter
of the primary ray) changes neither the return value of `Shape::intersect` nor the
final `color_to_return`; either list of removed lights may be empty. -/
theorem intersect_remove_occluded (m : MathFns α) (sh : Shape α) (line : Line α)
    (lights1 removed_lights lights2 : List (Light α))
    (spots1 removed_spots spots2 : List (SpotLight α))
    (shapes : List (Shape α)) (color_to_return : Color α)
    (current_level recursion_level : Int)
    (hlights : ∀ l ∈ removed_lights, ∃ s ∈ shapes,
      0 < s.getIntersection
        (light_line l.position (line.getPoint (sh.getIntersection line))) ∧
      s.getIntersection (light_line l.position (line.getPoint (sh.getIntersection line)))
        < sh.getIntersection line - 0.0001)
    (hspots : ∀ l ∈ removed_spots, ∃ s ∈ shapes,
      0 < s.getIntersection
        (light_line l.position (line.getPoint (sh.getIntersection line))) ∧
      s.getIntersection (light_line l.position (line.getPoint (sh.getIntersection line)))
        < sh.getIntersection line - 0.0001) :
    intersect m sh line (lights1 ++ removed_lights ++ lights2)
        (spots1 ++ removed_spots ++ spots2) shapes color_to_return current_level
        recursion_level =
      intersect m sh line (lights1 ++ lights2) (spots1 ++ spots2) shapes color_to_return
        current_level recursion_level := by
  have hL : ∀ st, removed_lights.foldl
      (point_light_step m sh line shapes (sh.getIntersection line)
        (line.getPoint (sh.getIntersection line))
        (sh.getColorAt (line.getPoint (sh.getIntersection line)))) st = st :=
    foldl_eq_of_forall_step_eq _ _ (fun l hl st =>
      point_light_step_of_occluded m sh line shapes _ _ _ st l
        ((is_visible_eq_false_iff shapes _ _).mpr (hlights l hl)))
  have hS : ∀ st, removed_spots.foldl
      (spot_light_step m sh line shapes (sh.getIntersection line)
        (line.getPoint (sh.getIntersection line))
        (sh.getColorAt (line.getPoint (sh.getIntersection line)))) st = st :=
    foldl_eq_of_forall_step_eq _ _ (fun l hl st =>
      spot_light_step_of_occluded m sh line shapes _ _ _ st l
        ((is_visible_eq_false_iff shapes _ _).mpr (hspots l hl)))
  unfold intersect
  simp only [List.foldl_append, hL, hS]

/-- Witness of C15: on the sample scene with the plane `z = 3/2` among the shapes, the
light and the spot light at `(0, 0, 1)` meet that plane at `1/2 < 1 - 0.0001`. -/
theorem intersect_remove_occluded_witness :
    intersect sampleFns floor_shape (down_ray 1) ([] ++ [top_light] ++ [])
        ([] ++ [up_spot] ++ []) [floor_shape, plane (3 / 2) 0 0 0] black 0 1 =
      intersect sampleFns floor_shape (down_ray 1) ([] ++ []) ([] ++ [])
        [floor_shape, plane (3 / 2) 0 0 0] black 0 1 :=
  intersect_remove_occluded sampleFns floor_shape (down_ray 1) [] [top_light] []
    [] [up_spot] [] [floor_shape, plane (3 / 2) 0 0 0] black 0 1
    (by
      intro l hl
      rw [List.mem_singleton] at hl
      subst hl
      refine ⟨plane (3 / 2) 0 0 0, by simp, ?_, ?_⟩ <;>
        norm_num [light_line, top_light, floor_shape, plane, down_ray, Line.getPoint,
          Vector3D.add, Vector3D.sub, Vector3D.scale])
    (by
      intro l hl
      rw [List.mem_singleton] at hl
      subst hl
      refine ⟨plane (3 / 2) 0 0 0, by simp, ?_, ?_⟩ <;>
        norm_num [light_line, up_spot, floor_shape, plane, down_ray, Line.getPoint,
          Vector3D.add, Vector3D.sub, Vector3D.scale])

/-- C16: over exact real arithmetic, the reflection vector used for the Phong term,
`r = d - n * 2 * (n . d)`, is the mirror image of `d` about the normal whenever `n` has
unit length: `r` has the same length as `d`, `r . n = -(d . n)` and
`r - n*(r . n) = d - n*(d . n)`. -/
theorem reflection_vector_mirror (n d : Vector3D ℝ)
    (hunit : Vector3D.length Real.sqrt n = 1) :
    Vector3D.length Real.sqrt (reflection_vector n d) = Vector3D.length Real.sqrt d ∧
    Vector3D.dot_product (reflection_vector n d) n = -(Vector3D.dot_product d n) ∧
    Vector3D.sub (reflection_vector n d)
        (Vector3D.scale n (Vector3D.dot_product (reflection_vector n d) n))
      = Vector3D.sub d (Vector3D.scale n (Vector3D.dot_product d n)) := by
  obtain ⟨n1, n2, n3⟩ := n
  obtain ⟨d1, d2, d3⟩ := d
  simp only [Vector3D.length] at hunit
  have hu : n1 * n1 + n2 * n2 + n3 * n3 = 1 := Real.sqrt_eq_one.mp hunit
  refine ⟨?_, ?_, ?_⟩
  · simp only [Vector3D.length, reflection_vector, Vector3D.sub, Vector3D.scale,
      Vector3D.dot_product]
    congr 1
    linear_combination (4 * (n1 * d1 + n2 * d2 + n3 * d3) ^ 2) * hu
  · simp only [reflection_vector, Vector3D.sub, Vector3D.scale, Vector3D.dot_product]
    linear_combination (-2 * (n1 * d1 + n2 * d2 + n3 * d3)) * hu
  · simp only [reflection_vector, Vector3D.sub, Vector3D.scale, Vector3D.dot_product,
      Vector3D.mk.injEq]
    refine ⟨?_, ?_, ?_⟩
    · linear_combination (2 * n1 * (n1 * d1 + n2 * d2 + n3 * d3)) * hu
    · linear_combination (2 * n2 * (n1 * d1 + n2 * d2 + n3 * d3)) * hu
    · linear_combination (2 * n3 * (n1 * d1 + n2 * d2 + n3 * d3)) * hu

/-- Witness of C16: the unit normal `(0, 0, 1)` and the direction `(1, 2, 3)`. -/
theorem reflection_vector_mirror_witness :
    Vector3D.length Real.sqrt (reflection_vector (⟨0, 0, 1⟩ : Vector3D ℝ) ⟨1, 2, 3⟩)
      = Vector3D.length Real.sqrt ⟨1, 2, 3⟩ ∧
    Vector3D.dot_product (reflection_vector (⟨0, 0, 1⟩ : Vector3D ℝ) ⟨1, 2, 3⟩) ⟨0, 0, 1⟩
      = -(Vector3D.dot_product ⟨1, 2, 3⟩ ⟨0, 0, 1⟩) ∧
    Vector3D.sub (reflection_vector (⟨0, 0, 1⟩ : Vector3D ℝ) ⟨1, 2, 3⟩)
        (Vector3D.scale ⟨0, 0, 1⟩
          (Vector3D.dot_product (reflection_vector ⟨0, 0, 1⟩ ⟨1, 2, 3⟩) ⟨0, 0, 1⟩))
      = Vector3D.sub ⟨1, 2, 3⟩
        (Vector3D.scale ⟨0, 0, 1⟩ (Vector3D.dot_product ⟨1, 2, 3⟩ ⟨0, 0, 1⟩)) :=
  reflection_vector_mirror ⟨0, 0, 1⟩ ⟨1, 2, 3⟩ (by simp [Vector3D.length])

/-- C17: over exact real arithmetic, the attenuation factor applied to a light at `L`
for the hit point `P` equals `exp(-falloff * ((Lx-Px)^2 + (Ly-Py)^2 + (Lz-Pz)^2))`; it
is exactly 1 when `falloff = 0`, and for `falloff >= 0` it lies in `(0, 1]` and does
not increase as the squared distance grows. -/
theorem scaling_factor_attenuation (L P : Vector3D ℝ) (falloff : ℝ) :
    scaling_factor Real.sqrt Real.exp (Vector3D.sub L P) falloff
      = Real.exp (-falloff * ((L.x - P.x) ^ 2 + (L.y - P.y) ^ 2 + (L.z - P.z) ^ 2)) ∧
    scaling_factor Real.sqrt Real.exp (Vector3D.sub L P) 0 = 1 ∧
    (0 ≤ falloff →
      0 < scaling_factor Real.sqrt Real.exp (Vector3D.sub L P) falloff ∧
      scaling_factor Real.sqrt Real.exp (Vector3D.sub L P) falloff ≤ 1) ∧
    (0 ≤ falloff → ∀ L' P' : Vector3D ℝ,
      (L.x - P.x) ^ 2 + (L.y - P.y) ^ 2 + (L.z - P.z) ^ 2
        ≤ (L'.x - P'.x) ^ 2 + (L'.y - P'.y) ^ 2 + (L'.z - P'.z) ^ 2 →
      scaling_factor Real.sqrt Real.exp (Vector3D.sub L' P') falloff
        ≤ scaling_factor Real.sqrt Real.exp (Vector3D.sub L P) falloff) := by
  have hform : ∀ (A B : Vector3D ℝ) (f : ℝ),
      scaling_factor Real.sqrt Real.exp (Vector3D.sub A B) f
        = Real.exp (-f * ((A.x - B.x) ^ 2 + (A.y - B.y) ^ 2 + (A.z - B.z) ^ 2)) := by
    intro A B f
    rw [scaling_factor_real]
    rfl
  refine ⟨hform L P falloff, ?_, ?_, ?_⟩
  · rw [hform, neg_zero, zero_mul, Real.exp_zero]
  · intro hf
    rw [hform]
    refine ⟨Real.exp_pos _, ?_⟩
    rw [← Real.exp_zero]
    apply Real.exp_le_exp.mpr
    have : 0 ≤ falloff * ((L.x - P.x) ^ 2 + (L.y - P.y) ^ 2 + (L.z - P.z) ^ 2) :=
      mul_nonneg hf (by positivity)
    linarith
  · intro hf L' P' hd
    rw [hform, hform]
    apply Real.exp_le_exp.mpr
    have := mul_le_mul_of_nonneg_left hd hf
    linarith

/-- Witness of C17: the light at `(0, 0, 1)`, the hit point `(0, 0, 0)` and falloff 1
give a factor in `(0, 1]`, not smaller than the factor of the light at `(0, 0, 2)`. -/
theorem scaling_factor_attenuation_witness :
    (0 < scaling_factor Real.sqrt Real.exp (Vector3D.sub ⟨0, 0, 1⟩ ⟨0, 0, 0⟩) 1 ∧
      scaling_factor Real.sqrt Real.exp (Vector3D.sub ⟨0, 0, 1⟩ ⟨0, 0, 0⟩) 1 ≤ 1) ∧
    scaling_factor Real.sqrt Real.exp (Vector3D.sub ⟨0, 0, 2⟩ ⟨0, 0, 0⟩) 1
      ≤ scaling_factor Real.sqrt Real.exp (Vector3D.sub ⟨0, 0, 1⟩ ⟨0, 0, 0⟩) 1 :=
  ⟨(scaling_factor_attenuation ⟨0, 0, 1⟩ ⟨0, 0, 0⟩ 1).2.2.1 (by norm_num),
    (scaling_factor_attenuation ⟨0, 0, 1⟩ ⟨0, 0, 0⟩ 1).2.2.2 (by norm_num)
      ⟨0, 0, 2⟩ ⟨0, 0, 0⟩ (by norm_num)⟩

/-- C19: when `getIntersection(line) = t >= 0` and `recursion_level != 0`,
`Shape::intersect` returns exactly `t`, the same un-shaded distance it returns at
recursion level 0 (`t = 0` counts as a hit); the return value does not depend on the
lights, spot lights, shapes list or material coefficients: any other run on a shape
with the same `getIntersection(line)` returns `t` as well. -/
theorem intersect_returns_parameter (m m' : MathFns α) (sh sh' : Shape α) (line : Line α)
    (lights lights' : List (Light α)) (spot_lights spot_lights' : List (SpotLight α))
    (shapes shapes' : List (Shape α)) (color_to_return color_to_return' : Color α)
    (current_level current_level' recursion_level recursion_level' : Int)
    (hit : 0 ≤ sh.getIntersection line) (hrec : recursion_level ≠ 0)
    (hsame : sh'.getIntersection line = sh.getIntersection line) :
    (intersect m sh line lights spot_lights shapes color_to_return current_level
      recursion_level).1 = sh.getIntersection line ∧
    (intersect m sh line lights spot_lights shapes color_to_return current_level 0).1
      = sh.getIntersection line ∧
    (intersect m' sh' line lights' spot_lights' shapes' color_to_return' current_level'
      recursion_level').1 = sh.getIntersection line := by
  have hit' : 0 ≤ sh'.getIntersection line := hsame ▸ hit
  refine ⟨?_, ?_, ?_⟩
  · rw [intersect_of_hit m sh line lights spot_lights shapes color_to_return current_level
      recursion_level hit hrec]
  · unfold intersect
    simp only [not_lt.mpr hit, if_false, if_true]
  · unfold intersect
    simp only [not_lt.mpr hit', if_false]
    split_ifs <;> exact hsame

/-- Witness of C19: the down ray hits the floor at `t = 1`; a plane `z = 0` with other
coefficients, other lights and another entry colour returns the same value. -/
theorem intersect_returns_parameter_witness :
    (intersect sampleFns floor_shape (down_ray 1) [top_light] [up_spot] [floor_shape]
      black 0 1).1 = floor_shape.getIntersection (down_ray 1) ∧
    (intersect sampleFns floor_shape (down_ray 1) [top_light] [up_spot] [floor_shape]
      black 0 0).1 = floor_shape.getIntersection (down_ray 1) ∧
    (intersect sampleFns (plane 0 0 1 1) (down_ray 1) [] [] [] ⟨1, 1, 1⟩ 3 4).1
      = floor_shape.getIntersection (down_ray 1) :=
  intersect_returns_parameter sampleFns sampleFns floor_shape (plane 0 0 1 1) (down_ray 1)
    [top_light] [] [up_spot] [] [floor_shape] [] black ⟨1, 1, 1⟩ 0 3 1 4
    (by norm_num [floor_shape, plane, down_ray]) (by decide)
    (by norm_num [floor_shape, plane, down_ray])

end IntersectTheorems

namespace Clock

/-- C20 (the code diverges from the claim): for width 0 and every non-negative height
the handler `reshape` evaluates `-1.0 / aspect` with `aspect = 0`: the guard of line 47
only protects the divisor `height`. -/
theorem reshape_zero_width (height : Int) (hh : 0 ≤ height) :
    reshape 0 height = none := by
  by_cases h0 : height = 0
  · subst h0
    simp [reshape, checked_div]
  · have hne : (height : ℚ) ≠ 0 := by exact_mod_cast h0
    have hlt : ¬ (0 ≥ height) := by omega
    simp [reshape, checked_div, h0, hne, hlt]

/-- Witness of the C20 evaluation: `reshape(0, 0)`, the case the guard
`if (height == 0) height = 1` is written for, divides by zero. -/
theorem reshape_zero_width_witness : reshape 0 0 = none :=
  reshape_zero_width 0 (le_refl 0)

/-- For a positive width and a non-negative height the handler `reshape` evaluates no
division with a zero divisor. -/
theorem reshape_positive_width (width height : Int) (hw : 0 < width) (hh : 0 ≤ height) :
    (reshape width height).isSome = true := by
  have hw' : (width : ℚ) ≠ 0 := by exact_mod_cast hw.ne'
  by_cases h0 : height = 0
  · have : width ≥ 1 := hw
    simp [reshape, checked_div, h0, this]
  · have hne : (height : ℚ) ≠ 0 := by exact_mod_cast h0
    simp only [reshape, checked_div, h0, if_false, hne, Option.some_bind]
    split_ifs with h1 h2
    · rfl
    · exact absurd h2 (div_ne_zero hw' hne)
    · rfl

/-- C22: the clock-hand angles stay in range. If `second_angle`, `minute_angle` and
`hour_angle` are each in `[0, 360)` before `second_passed_handler` runs, each is in
`[0, 360)` after it; and every state reached from the initial all-zero state by `n`
ticks has all three angles in `[0, 360)`. -/
theorem angles_stay_in_range (s : State) (value : Int) (n : Nat) (h : in_range s) :
    in_range (second_passed_handler value s) ∧ in_range (ticks n) := by
  have step : ∀ (s : State) (v : Int), in_range s → in_range (second_passed_handler v s) := by
    intro s v hs
    obtain ⟨⟨hs0, hs1⟩, ⟨hm0, hm1⟩, ⟨hh0, hh1⟩⟩ := hs
    simp only [in_range, second_passed_handler, ANGLE_INCREMENT]
    refine ⟨⟨?_, ?_⟩, ⟨?_, ?_⟩, ⟨?_, ?_⟩⟩ <;> split_ifs with hc <;> norm_num at hc ⊢ <;>
      linarith
  refine ⟨step s value h, ?_⟩
  induction n with
  | zero => norm_num [ticks, initial_state, in_range]
  | succ n ih => exact step _ _ ih

/-- Witness of C22: the initial state is in range; one call and 61 ticks stay in
range. -/
theorem angles_stay_in_range_witness :
    in_range (second_passed_handler 0 initial_state) ∧ in_range (ticks 61) :=
  angles_stay_in_range initial_state 0 61 (by norm_num [in_range, initial_state])

/-- C23: over exact arithmetic, after `n` calls of `second_passed_handler` from the
initial state the angles are `second_angle = 6 * (n mod 60)`,
`minute_angle = (n mod 3600) / 10` and `hour_angle = (n mod 216000) / 600`; so the
second hand repeats every 60 ticks (and is back at 0 after 60), the minute hand repeats
every 3600 ticks (and is back at 0 after 3600), and the hour hand has advanced 6
degrees after 3600 ticks. -/
theorem ticks_angles (n : Nat) :
    ((ticks n).second_angle = 6 * ((n % 60 : ℕ) : ℚ) ∧
      (ticks n).minute_angle = ((n % 3600 : ℕ) : ℚ) / 10 ∧
      (ticks n).hour_angle = ((n % 216000 : ℕ) : ℚ) / 600) ∧
    (ticks (n + 60)).second_angle = (ticks n).second_angle ∧
    (ticks (n + 3600)).minute_angle = (ticks n).minute_angle ∧
    (ticks 60).second_angle = 0 ∧ (ticks 3600).minute_angle = 0 ∧
    (ticks 3600).hour_angle = 6 := by
  have hs : ∀ n, (ticks n).second_angle = 6 * ((n % 60 : ℕ) : ℚ) := by
    intro n
    induction n with
    | zero => norm_num [ticks, initial_state]
    | succ n ih =>
      simp only [ticks, second_passed_handler, ih, ANGLE_INCREMENT]
      by_cases h59 : n % 60 = 59
      · have h1 : (n + 1) % 60 = 0 := by omega
        rw [h1, h59]
        norm_num
      · have h1 : (n + 1) % 60 = n % 60 + 1 := by omega
        have hle : ((n % 60 : ℕ) : ℚ) ≤ 58 := by exact_mod_cast (by omega : n % 60 ≤ 58)
        have hlt : ¬ (6 * ((n % 60 : ℕ) : ℚ) + 6.0 ≥ 360.0) := by
          norm_num
          linarith
        rw [h1, if_neg hlt]
        push_cast
        norm_num
        ring
  have hm : ∀ n, (ticks n).minute_angle = ((n % 3600 : ℕ) : ℚ) / 10 := by
    intro n
    induction n with
    | zero => norm_num [ticks, initial_state]
    | succ n ih =>
      simp only [ticks, second_passed_handler, ih, ANGLE_INCREMENT]
      by_cases hlast : n % 3600 = 3599
      · have h1 : (n + 1) % 3600 = 0 := by omega
        rw [h1, hlast]
        norm_num
      · have h1 : (n + 1) % 3600 = n % 3600 + 1 := by omega
        have hle : ((n % 3600 : ℕ) : ℚ) ≤ 3598 := by
          exact_mod_cast (by omega : n % 3600 ≤ 3598)
        have hlt : ¬ (((n % 3600 : ℕ) : ℚ) / 10 + 6.0 / 60.0 ≥ 360.0) := by
          norm_num
          linarith
        rw [h1, if_neg hlt]
        push_cast
        norm_num
        ring
  have hh : ∀ n, (ticks n).hour_angle = ((n % 216000 : ℕ) : ℚ) / 600 := by
    intro n
    induction n with
    | zero => norm_num [ticks, initial_state]
    | succ n ih =>
      simp only [ticks, second_passed_handler, ih, ANGLE_INCREMENT]
      by_cases hlast : n % 216000 = 215999
      · have h1 : (n + 1) % 216000 = 0 := by omega
        rw [h1, hlast]
        norm_num
      · have h1 : (n + 1) % 216000 = n % 216000 + 1 := by omega
        have hle : ((n % 216000 : ℕ) : ℚ) ≤ 215998 := by
          exact_mod_cast (by omega : n % 216000 ≤ 215998)
        have hlt : ¬ (((n % 216000 : ℕ) : ℚ) / 600 + 6.0 / 3600.0 ≥ 360.0) := by
          norm_num
          linarith
        rw [h1, if_neg hlt]
        push_cast
        norm_num
        ring
  refine ⟨⟨hs n, hm n, hh n⟩, ?_, ?_, ?_, ?_, ?_⟩
  · rw [hs, hs, Nat.add_mod_right]
  · rw [hm, hm, Nat.add_mod_right]
  · rw [hs]; norm_num
  · rw [hm]; norm_num
  · rw [hh]; norm_num

end Clock

namespace MagicCube

variable {α ω : Type} [LinearOrderedField α]

/-- Unfolding of case `'1'` of `key_poressed`: `look[1]` is kept, `look[0]` becomes
`look[0] * cos(-M_PI / 180) + look[2] * sin(-M_PI / 180)` and `look[2]` is computed
from that new `look[0]`. -/
theorem key_poressed_one (cos sin : α → α) (rotateX rotateY : ω → α → ω) (x y : Int)
    (s : State α ω) :
    key_poressed cos sin rotateX rotateY '1' x y s =
      { s with look :=
          ⟨s.look.i0 * cos (-M_PI / 180) + s.look.i2 * sin (-M_PI / 180), s.look.i1,
            -(s.look.i0 * cos (-M_PI / 180) + s.look.i2 * sin (-M_PI / 180))
                * sin (-M_PI / 180) + s.look.i2 * cos (-M_PI / 180)⟩ } := by
  simp [key_poressed]

/-- C21 (the code diverges from the claim): over exact real arithmetic, pressing `'1'`
in the initial state (`look = (0, 0, -1)`) keeps `look[1]`, sets `look[0]` to
`-sin(-M_PI / 180)` and `look[2]` to `sin(-M_PI / 180)^2 - cos(-M_PI / 180)`, the
second assignment reading the new `look[0]`; `look[0]^2 + look[2]^2` is then different
from its value `1` before the key press, so the pair is not rotated. -/
theorem key_one_changes_length :
    (key_poressed Real.cos Real.sin (fun (o : Unit) (_ : ℝ) => o) (fun o _ => o) '1' 0 0
      (initial_state ())).look.i1 = (initial_state () : State ℝ Unit).look.i1 ∧
    (key_poressed Real.cos Real.sin (fun (o : Unit) (_ : ℝ) => o) (fun o _ => o) '1' 0 0
      (initial_state ())).look.i0 = -Real.sin (-M_PI / 180) ∧
    (key_poressed Real.cos Real.sin (fun (o : Unit) (_ : ℝ) => o) (fun o _ => o) '1' 0 0
      (initial_state ())).look.i2
        = Real.sin (-M_PI / 180) ^ 2 - Real.cos (-M_PI / 180) ∧
    (key_poressed Real.cos Real.sin (fun (o : Unit) (_ : ℝ) => o) (fun o _ => o) '1' 0 0
        (initial_state ())).look.i0 ^ 2 +
      (key_poressed Real.cos Real.sin (fun (o : Unit) (_ : ℝ) => o) (fun o _ => o) '1' 0 0
        (initial_state ())).look.i2 ^ 2
      ≠ (initial_state () : State ℝ Unit).look.i0 ^ 2 +
        (initial_state () : State ℝ Unit).look.i2 ^ 2 := by
  have hpi : (M_PI : ℝ) = 3.14159265358979323846 := rfl
  have ha0 : (-M_PI / 180 : ℝ) < 0 := by rw [hpi]; norm_num
  have ha1 : (-1 : ℝ) < -M_PI / 180 := by rw [hpi]; norm_num
  have hsin : Real.sin (-M_PI / 180) < 0 :=
    Real.sin_neg_of_neg_of_neg_pi_lt ha0 (by linarith [Real.pi_gt_three])
  have hcos : 1 / 2 < Real.cos (-M_PI / 180) := by
    have h := Real.one_sub_sq_div_two_le_cos (x := (-M_PI / 180 : ℝ))
    have hsq : (-M_PI / 180 : ℝ) ^ 2 < 1 := by nlinarith
    linarith
  have hcs := Real.sin_sq_add_cos_sq (-M_PI / 180 : ℝ)
  have hle : Real.sin (-M_PI / 180) ^ 2 ≤ 1 := Real.sin_sq_le_one _
  have hs2 : 0 < Real.sin (-M_PI / 180) ^ 2 := by
    nlinarith [mul_pos_of_neg_of_neg hsin hsin]
  have h0 : (key_poressed Real.cos Real.sin (fun (o : Unit) (_ : ℝ) => o) (fun o _ => o)
      '1' 0 0 (initial_state ())).look.i0 = -Real.sin (-M_PI / 180) := by
    rw [key_poressed_one]
    norm_num [initial_state]
  have h2 : (key_poressed Real.cos Real.sin (fun (o : Unit) (_ : ℝ) => o) (fun o _ => o)
      '1' 0 0 (initial_state ())).look.i2
        = Real.sin (-M_PI / 180) ^ 2 - Real.cos (-M_PI / 180) := by
    rw [key_poressed_one]
    norm_num [initial_state]
    ring
  refine ⟨?_, h0, h2, ?_⟩
  · rw [key_poressed_one]
  · rw [h0, h2]
    intro heq
    simp only [initial_state] at heq
    norm_num at heq
    nlinarith

/-- C24: camera translation keeps the viewing offset. For every state and every special
key code, `special_key_pressed` changes `camera[i]` and `look[i]` by the same amount in
each component, so `look - camera` is unchanged, and `up` is not modified; LEFT and
RIGHT move `x` by `-0.1` and `+0.1`, PAGE_DOWN and PAGE_UP move `y` by `-0.1` and
`+0.1`, UP and DOWN move `z` by `-0.1` and `+0.1`, and any other key leaves the state
unchanged. -/
theorem special_key_pressed_keeps_offset (s : State α ω) (key x y : Int) :
    ((special_key_pressed key x y s).camera.i0 - s.camera.i0
        = (special_key_pressed key x y s).look.i0 - s.look.i0 ∧
      (special_key_pressed key x y s).camera.i1 - s.camera.i1
        = (special_key_pressed key x y s).look.i1 - s.look.i1 ∧
      (special_key_pressed key x y s).camera.i2 - s.camera.i2
        = (special_key_pressed key x y s).look.i2 - s.look.i2) ∧
    ((special_key_pressed key x y s).look.i0 - (special_key_pressed key x y s).camera.i0
        = s.look.i0 - s.camera.i0 ∧
      (special_key_pressed key x y s).look.i1 - (special_key_pressed key x y s).camera.i1
        = s.look.i1 - s.camera.i1 ∧
      (special_key_pressed key x y s).look.i2 - (special_key_pressed key x y s).camera.i2
        = s.look.i2 - s.camera.i2) ∧
    (special_key_pressed key x y s).up = s.up ∧
    special_key_pressed GLUT_KEY_LEFT x y s =
      { s with camera := ⟨s.camera.i0 - 0.1, s.camera.i1, s.camera.i2⟩,
               look := ⟨s.look.i0 - 0.1, s.look.i1, s.look.i2⟩ } ∧
    special_key_pressed GLUT_KEY_RIGHT x y s =
      { s with camera := ⟨s.camera.i0 + 0.1, s.camera.i1, s.camera.i2⟩,
               look := ⟨s.look.i0 + 0.1, s.look.i1, s.look.i2⟩ } ∧
    special_key_pressed GLUT_KEY_PAGE_DOWN x y s =
      { s with camera := ⟨s.camera.i0, s.camera.i1 - 0.1, s.camera.i2⟩,
               look := ⟨s.look.i0, s.look.i1 - 0.1, s.look.i2⟩ } ∧
    special_key_pressed GLUT_KEY_PAGE_UP x y s =
      { s with camera := ⟨s.camera.i0, s.camera.i1 + 0.1, s.camera.i2⟩,
               look := ⟨s.look.i0, s.look.i1 + 0.1, s.look.i2⟩ } ∧
    special_key_pressed GLUT_KEY_UP x y s =
      { s with camera := ⟨s.camera.i0, s.camera.i1, s.camera.i2 - 0.1⟩,
               look := ⟨s.look.i0, s.look.i1, s.look.i2 - 0.1⟩ } ∧
    special_key_pressed GLUT_KEY_DOWN x y s =
      { s with camera := ⟨s.camera.i0, s.camera.i1, s.camera.i2 + 0.1⟩,
               look := ⟨s.look.i0, s.look.i1, s.look.i2 + 0.1⟩ } ∧
    (key ≠ GLUT_KEY_LEFT → key ≠ GLUT_KEY_RIGHT → key ≠ GLUT_KEY_UP →
      key ≠ GLUT_KEY_DOWN → key ≠ GLUT_KEY_PAGE_UP → key ≠ GLUT_KEY_PAGE_DOWN →
      special_key_pressed key x y s = s) := by
  refine ⟨?_, ?_, ?_, ?_, ?_, ?_, ?_, ?_, ?_, ?_⟩
  · unfold special_key_pressed
    split_ifs <;> refine ⟨?_, ?_, ?_⟩ <;> simp
  · unfold special_key_pressed
    split_ifs <;> refine ⟨?_, ?_, ?_⟩ <;> simp
  · unfold special_key_pressed
    split_ifs <;> rfl
  · simp [special_key_pressed]
  · simp [special_key_pressed, GLUT_KEY_RIGHT, GLUT_KEY_LEFT]
  · simp [special_key_pressed, GLUT_KEY_RIGHT, GLUT_KEY_LEFT, GLUT_KEY_UP, GLUT_KEY_DOWN,
      GLUT_KEY_PAGE_UP, GLUT_KEY_PAGE_DOWN]
  · simp [special_key_pressed, GLUT_KEY_RIGHT, GLUT_KEY_LEFT, GLUT_KEY_UP, GLUT_KEY_DOWN,
      GLUT_KEY_PAGE_UP]
  · simp [special_key_pressed, GLUT_KEY_RIGHT, GLUT_KEY_LEFT, GLUT_KEY_UP]
  · simp [special_key_pressed, GLUT_KEY_RIGHT, GLUT_KEY_LEFT, GLUT_KEY_UP, GLUT_KEY_DOWN]
  · intro h1 h2 h3 h4 h5 h6
    simp [special_key_pressed, h1, h2, h3, h4, h5, h6]

/-- Witness of C24: the key code `0` is none of the six handled keys and leaves the
initial state unchanged. -/
theorem special_key_pressed_keeps_offset_witness :
    special_key_pressed 0 0 0 (initial_state () : State ℚ Unit) = initial_state () :=
  (special_key_pressed_keeps_offset (initial_state () : State ℚ Unit) 0 0 0).2.2.2.2.2.2.2.2.2
    (by decide) (by decide) (by decide) (by decide) (by decide) (by decide)

end MagicCube

end RayTracer
